import Mathlib

/-!
Shallow embedding of the multiplexed USB host-to-host protocol implemented in
`fluxclient/device/host2host_usb.py`: the frame codec, the handshake state
machine, the demultiplexing loop, the channel registry and the per-channel
acknowledgment discipline.

Byte strings are `List Nat` whose in-range elements are below 256.  The
external record codec (msgpack) is an external collaborator and is kept
abstract through a `Codec` parameter; blocking semaphore waits are modelled as
counters evaluated in a single-threaded interleaving (an acquire succeeds if
and only if the counter is positive, since no concurrent release can arrive
during the wait in this model).  Transport writes are modelled by accumulating
the written frames in a `sent` list.
-/

/-- Result of one decoding step of `USBProtocol._unpack_buffer`: a complete
frame, the zero-length "skip" sentinel (the source returns `-1` for it), or
"incomplete" (the source returns `None`). -/
inductive UnpackResult where
  | incomplete
  | skip
  | frame (channel : Nat) (payload : List Nat) (fin : Nat)
deriving DecidableEq

/-- `HEAD_PACKER.pack(size, channel)` for `Struct("<HB")`: two little-endian
length bytes followed by the channel byte; `struct.error` (modelled as `none`)
when a field does not fit its width. -/
def packHead (size channel : Nat) : Option (List Nat) :=
  if size ≤ 0xffff ∧ channel ≤ 0xff then
    some [size % 256, size / 256, channel]
  else none

/-- Frame encoder pattern shared by `USBProtocol.send_object` and
`USBProtocol.send_binary`:
`HEAD_PACKER.pack(len(payload) + 4, channel) + payload + terminator`. -/
def encodeFrame (channel : Nat) (payload : List Nat) (term : Nat) : Option (List Nat) :=
  (packHead (payload.length + 4) channel).map (fun h => h ++ payload ++ [term])

/-- `USBProtocol._unpack_buffer`: decode one frame from the front of the
receive buffer, returning the decode result together with the new buffer.
A buffer of at most 3 bytes is incomplete; a zero `total_length` consumes the
two length bytes only (not the channel byte) and yields the skip sentinel;
otherwise a complete frame of `size` bytes is extracted once buffered
(`payload = buf[3 : size - 1]`, `fin = buf[size - 1]`). -/
def unpack_buffer (buf : List Nat) : UnpackResult × List Nat :=
  if 3 < buf.length then
    if buf.getD 0 0 + 256 * buf.getD 1 0 = 0 then (.skip, buf.drop 2)
    else if buf.getD 0 0 + 256 * buf.getD 1 0 ≤ buf.length then
      (.frame (buf.getD 2 0)
        ((buf.drop 3).take (buf.getD 0 0 + 256 * buf.getD 1 0 - 4))
        (buf.getD (buf.getD 0 0 + 256 * buf.getD 1 0 - 1) 0),
        buf.drop (buf.getD 0 0 + 256 * buf.getD 1 0))
    else (.incomplete, buf)
  else (.incomplete, buf)

/-- A handshake session token.  `qmark` is the `"?"` default stored by
`_handle_handshake` when the profile record carries no `session` field;
`tok n` stands for an ordinary token value. -/
inductive Tok where
  | qmark
  | tok (n : Nat)
deriving DecidableEq

/-- The records this implementation passes to `msgpack.packb`: `None` (the
handshake request and the teardown signal), the handshake acknowledgment
`{"session": …, "client": …}`, and the channel open/close control requests. -/
inductive PyObj where
  | nil
  | hsAck (session : Tok)
  | ctrlOpen (channel : Option Nat) (channel_type : String)
  | ctrlClose (channel : Option Nat)
deriving DecidableEq

/-- Decoded control-response record as read by `_on_channel_ctrl_response`:
each field is `none` when absent (`obj.get` returning `None`). -/
structure CtrlObj where
  channel : Option Nat
  status : Option String
  action : Option String
deriving DecidableEq

/-- Decoded handshake record as read by `_handle_handshake` and
`_final_handshake`: the `session` field (`none` when the key is absent) and
the remaining fields, kept opaque as their encoded bytes. -/
structure HsMsg where
  session : Option Tok
  rest : List Nat
deriving DecidableEq

/-- The external record codec (msgpack): an abstract encoder for the records
this implementation sends and abstract decoders for the control-response and
handshake records it receives. -/
structure Codec where
  packb : PyObj → List Nat
  unpackCtrl : List Nat → CtrlObj
  unpackHs : List Nat → HsMsg

/-- State of one `Channel` object: its index, the three counting semaphores,
the object and binary FIFO queues, the optional attached live binary-stream
sink (modelled as the list of byte strings forwarded to it), and the
open flag. -/
structure Channel where
  index : Option Nat
  obj_semaphore : Nat
  buf_semaphore : Nat
  ack_semaphore : Nat
  objq : List (List Nat)
  bufq : List (List Nat)
  binary_stream : Option (List (List Nat))
  opened : Bool
deriving DecidableEq

/-- `Channel.__init__`: all semaphores start at 0, both queues empty, no
binary stream attached, channel opened. -/
def Channel.new (index : Option Nat) : Channel :=
  ⟨index, 0, 0, 0, [], [], none, true⟩

/-- `Channel.on_object`: append the decoded record to the object queue and
release one waiter.  The external record decode is modelled as the identity on
the payload bytes, so the queue stores the raw payloads. -/
def Channel.on_object (p : List Nat) (ch : Channel) : Channel :=
  { ch with objq := ch.objq ++ [p], obj_semaphore := ch.obj_semaphore + 1 }

/-- `Channel.on_binary`: forward the payload to the attached binary stream if
one is attached, otherwise append it to the binary queue and release one
waiter. -/
def Channel.on_binary (p : List Nat) (ch : Channel) : Channel :=
  match ch.binary_stream with
  | some sunk => { ch with binary_stream := some (sunk ++ [p]) }
  | none => { ch with bufq := ch.bufq ++ [p], buf_semaphore := ch.buf_semaphore + 1 }

/-- `Channel.on_binary_ack`: release the acknowledgment semaphore, i.e.
increment its counter by one. -/
def Channel.on_binary_ack (ch : Channel) : Channel :=
  { ch with ack_semaphore := ch.ack_semaphore + 1 }

/-- State of one `USBProtocol` connection: receive buffer, frames written to
the transport so far, the channel registry (a mapping from the `channel` field
of open confirmations — an `Option Nat`, since the field may be absent — to
channel states, in insertion order), the channel-open semaphore, the run-flag
bitmask, the handshake session and profile, the count of device-reset control
transfers, and whether the transport has been disposed. -/
structure USBProtocol where
  buf : List Nat
  sent : List (List Nat)
  channels : List (Option Nat × Channel)
  chl_semaphore : Nat
  flag : Nat
  session : Option Tok
  endpoint_profile : Option (List Nat)
  connected_profile : Option (List Nat)
  resets : Nat
  disposed : Bool
deriving DecidableEq

/-- `self.channels.get(k)`: look up a registry key. -/
def chanLookup : List (Option Nat × Channel) → Option Nat → Option Channel
  | [], _ => none
  | kc :: rest, k => if kc.1 = k then some kc.2 else chanLookup rest k

/-- Mutation of the (unique) registry entry at a key, modelling an in-place
update of the aliased `Channel` object. -/
def chanUpdate : List (Option Nat × Channel) → Option Nat → (Channel → Channel) →
    List (Option Nat × Channel)
  | [], _, _ => []
  | kc :: rest, k, f =>
    (if kc.1 = k then (kc.1, f kc.2) else kc) :: chanUpdate rest k f

/-- `self.channels[k] = v`: replace the entry when the key is present,
otherwise append it (dict insertion order). -/
def chanInsert (l : List (Option Nat × Channel)) (k : Option Nat) (v : Channel) :
    List (Option Nat × Channel) :=
  if (chanLookup l k).isSome then chanUpdate l k (fun _ => v) else l ++ [(k, v)]

/-- `self.channels.pop(k)` after a successful membership test. -/
def chanRemove (l : List (Option Nat × Channel)) (k : Option Nat) :
    List (Option Nat × Channel) :=
  l.filter (fun kc => kc.1 ≠ k)

/-- `USBProtocol.send_object`: msgpack-encode the record and write an
object frame (terminator `0xB0`) on the given channel.  A `struct.error` from
an oversized record is not modelled (the records sent here are small). -/
def USBProtocol.send_object (cd : Codec) (st : USBProtocol) (channel : Nat) (obj : PyObj) :
    USBProtocol :=
  match encodeFrame channel (cd.packb obj) 0xb0 with
  | some f => { st with sent := st.sent ++ [f] }
  | none => st

/-- `USBProtocol._send_binary_ack`: the frame it writes,
`HEAD_PACKER.pack(4, channel_idx) + b"\x80"`. -/
def USBProtocol.send_binary_ack_frame (channel_idx : Nat) : Option (List Nat) :=
  (packHead 4 channel_idx).map (fun h => h ++ [0x80])

/-- `USBProtocol.stop`: clear the loop-running bit, `self._flag &= ~2`. -/
def USBProtocol.stop (st : USBProtocol) : USBProtocol :=
  { st with flag := st.flag - (st.flag &&& 2) }

/-- `USBProtocol.close`: send an empty object on the handshake-request
channel, force-close every registered channel directly, and release the
transport resource. -/
def USBProtocol.close (cd : Codec) (st : USBProtocol) : USBProtocol :=
  let st := st.send_object cd 0xfc PyObj.nil
  { st with
    channels := st.channels.map (fun kc => (kc.1, { kc.2 with opened := false })),
    disposed := true }

/-- Outcome of one `run_once` call: normal return, a raised `FluxUSBError`
(with its message), or another raised exception. -/
inductive RunResult where
  | ok
  | fluxErr (msg : String)
  | exn (msg : String)
deriving DecidableEq

/-- `USBProtocol._on_channel_ctrl_response`: dispatch a decoded
control-response record.  An `open`/`ok` response registers a fresh channel at
the reported index and releases one channel-open waiter; a `close`/`ok`
response removes the entry (`dict.pop` raises `KeyError` when absent); other
statuses and unknown actions are logged and ignored. -/
def USBProtocol.ctrl_response (st : USBProtocol) (obj : CtrlObj) : RunResult × USBProtocol :=
  if obj.action = some "open" then
    if obj.status = some "ok" then
      (.ok, { st with
                channels := chanInsert st.channels obj.channel (Channel.new obj.channel)
                chl_semaphore := st.chl_semaphore + 1 })
    else (.ok, st)
  else if obj.action = some "close" then
    if obj.status = some "ok" then
      if (chanLookup st.channels obj.channel).isSome then
        (.ok, { st with channels := chanRemove st.channels obj.channel })
      else (.exn "KeyError", st)
    else (.ok, st)
  else (.ok, st)

/-- `USBProtocol.run_once`: feed the receive buffer with the bytes read from
the transport (`chunk`), decode at most one frame, and dispatch it.  The skip
sentinel raises `FluxUSBError("USB protocol broken")`; a data-channel frame
(`channel_idx < 0x80`) requires a registered channel and dispatches on the
terminator (`0xF0` object, `0xFF` binary — acknowledgment frame written first,
then `on_binary` —, `0xC0` binary acknowledgment); `0xF1` carries a
control response; any other channel index stops the loop flag, closes the
connection and raises. -/
def USBProtocol.run_once (cd : Codec) (chunk : List Nat) (st : USBProtocol) :
    RunResult × USBProtocol :=
  let st := { st with buf := st.buf ++ chunk }
  let res := unpack_buffer st.buf
  let st := { st with buf := res.2 }
  match res.1 with
  | .incomplete => (.ok, st)
  | .skip => (.fluxErr "USB protocol broken", st)
  | .frame c p fin =>
    if c < 0x80 then
      match chanLookup st.channels (some c) with
      | none => (.fluxErr "Recv bad channel idx", st)
      | some _ =>
        if fin = 0xf0 then
          (.ok, { st with channels := chanUpdate st.channels (some c) (Channel.on_object p) })
        else if fin = 0xff then
          match USBProtocol.send_binary_ack_frame c with
          | some fr =>
            (.ok, { st with
                      sent := st.sent ++ [fr]
                      channels := chanUpdate st.channels (some c) (Channel.on_binary p) })
          | none => (.exn "struct.error", st)
        else if fin = 0xc0 then
          (.ok, { st with channels := chanUpdate st.channels (some c) Channel.on_binary_ack })
        else (.fluxErr "Recv bad fin", st)
    else if c = 0xf1 then
      if fin ≠ 0xf0 then (.fluxErr "Recv bad fin", st)
      else st.ctrl_response (cd.unpackCtrl p)
    else
      (.fluxErr "Recv bad control channel", USBProtocol.close cd st.stop)

/-- `USBProtocol.run` after setting the loop bit: iterate `run_once` while
`self._flag == 3`, feeding one chunk of transport input per iteration.  Both
exception handlers zero the flag and close the connection, which stops the
loop (the fuel bounds the otherwise unbounded while loop). -/
def USBProtocol.runLoop (cd : Codec) : Nat → USBProtocol → List (List Nat) → USBProtocol
  | 0, st, _ => st
  | fuel + 1, st, chunks =>
    if st.flag = 3 then
      match USBProtocol.run_once cd (chunks.headD []) st with
      | (.ok, st2) => USBProtocol.runLoop cd fuel st2 chunks.tail
      | (.fluxErr _, st2) => USBProtocol.close cd { st2 with flag := 0 }
      | (.exn _, st2) => USBProtocol.close cd { st2 with flag := 0 }
    else st

/-- `USBProtocol.run`: set the loop-running bit, then loop. -/
def USBProtocol.run (cd : Codec) (fuel : Nat) (st : USBProtocol) (chunks : List (List Nat)) :
    USBProtocol :=
  USBProtocol.runLoop cd fuel { st with flag := st.flag ||| 2 } chunks

/-- The index-selection loop of `USBProtocol.open_channel`:
`for i in range(len(self.channels) + 1): if self.channels.get(i) is None: idx = i`
(no break — every free slot overwrites `idx`). -/
def USBProtocol.selectIdx (channels : List (Option Nat × Channel)) : Option Nat :=
  (List.range (channels.length + 1)).foldl
    (fun idx i => if (chanLookup channels (some i)).isNone then some i else idx) none

/-- `USBProtocol.open_channel`, request phase (under the open-serialization
lock): select an index, send the control-open request
`{"channel": idx, "action": "open", "type": channel_type}` on channel `0xF0`,
and return the selected index.  The subsequent wait on `chl_semaphore` and the
registry lookup happen only after the demultiplexing loop processes the
confirmation, so they are outside this request-phase model. -/
def USBProtocol.open_channel (cd : Codec) (st : USBProtocol) (channel_type : String) :
    Option Nat × USBProtocol :=
  let idx := USBProtocol.selectIdx st.channels
  (idx, st.send_object cd 0xf0 (PyObj.ctrlOpen idx channel_type))

/-- Outcome of a `Channel.send_binary` call. -/
inductive SendOut where
  | ok
  | fluxErr (msg symbol : String)
  | exn (msg : String)
deriving DecidableEq

/-- `Channel.send_binary` on the channel registered at key `k`: fail with
`DEVICE_ERROR` when the channel is closed, otherwise write a binary frame
(terminator `0xBF`) on the channel's index and wait on the acknowledgment
semaphore: the acquire succeeds (consuming one release) iff the counter is
positive, and otherwise the bounded wait elapses with a `TIMEOUT` error. -/
def Channel.send_binary (st : USBProtocol) (k : Option Nat) (data : List Nat) :
    SendOut × USBProtocol :=
  match chanLookup st.channels k with
  | none => (.exn "stale handle", st)
  | some ch =>
    if ch.opened then
      match (match ch.index with
             | some i => encodeFrame i data 0xbf
             | none => none) with
      | none => (.exn "struct.error", st)
      | some fr =>
        let st1 := { st with sent := st.sent ++ [fr] }
        let dec : Channel → Channel := fun c => { c with ack_semaphore := c.ack_semaphore - 1 }
        if 0 < ch.ack_semaphore then
          (.ok, { st1 with channels := chanUpdate st1.channels k dec })
        else (.fluxErr "Operation timeout" "TIMEOUT", st1)
    else (.fluxErr "Device is closed" "DEVICE_ERROR", st)

/-- `USBProtocol._handle_handshake`: decode the profile record, pop its
`session` field (defaulting to `"?"`), store the remaining fields as the
endpoint profile, store the session token, and reply with
`{"session": …, "client": …}` on channel `0xFE`. -/
def USBProtocol.handle_handshake (cd : Codec) (st : USBProtocol) (p : List Nat) : USBProtocol :=
  let m := cd.unpackHs p
  let session := m.session.getD .qmark
  let st := { st with endpoint_profile := some m.rest, session := some session }
  st.send_object cd 0xfe (PyObj.hsAck session)

/-- `USBProtocol._final_handshake`: read the record's `session` field
(`KeyError`, modelled as `none`, when absent); on a match with the stored
session commit the endpoint profile, set the handshake-complete flag bit and
return `True`; on a mismatch clear the stored session and return `False`. -/
def USBProtocol.final_handshake (cd : Codec) (st : USBProtocol) (p : List Nat) :
    Option Bool × USBProtocol :=
  match (cd.unpackHs p).session with
  | none => (none, st)
  | some s =>
    if st.session = some s then
      (some true,
        { st with connected_profile := st.endpoint_profile, flag := st.flag ||| 1 })
    else (some false, { st with session := none })

/-- The drain loop inside `do_handshake`: repeatedly `_unpack_buffer` until
incomplete, keeping the last decoded result (`data = d`).  Each decoding step
consumes at least one byte, so a fuel of the buffer length is exact. -/
def drainAux : Nat → List Nat → Option UnpackResult → Option UnpackResult × List Nat
  | 0, buf, acc => (acc, buf)
  | fuel + 1, buf, acc =>
    match unpack_buffer buf with
    | (.incomplete, b) => (acc, b)
    | (.skip, b) => drainAux fuel b (some .skip)
    | (.frame c p f, b) => drainAux fuel b (some (.frame c p f))

/-- Drain the receive buffer, returning the last decoded result (`none` when
nothing decoded) and the remaining buffer. -/
def drainBuffer (buf : List Nat) : Option UnpackResult × List Nat :=
  drainAux buf.length buf none

/-- Outcome of one iteration of the `do_handshake` retry loop. -/
inductive HsStep where
  | success (st : USBProtocol)
  | keyErr (st : USBProtocol)
  | again (st : USBProtocol)
  | retry (st : USBProtocol)

/-- One iteration of the `do_handshake` loop body: feed the buffer, drain it
keeping the last decode, and dispatch.  A profile frame (channel `0xFF`,
terminator `0xF0`) is handled and the loop continues without consuming the
retry budget (`again`); a final-confirmation frame (channel `0xFD`,
terminator `0xF0`) with a stored session either succeeds, raises `KeyError`,
or falls through to a retry; everything else (mismatched frames, the skip
sentinel, or no decoded frame) falls through to a retry. -/
def USBProtocol.hs_iteration (cd : Codec) (st : USBProtocol) (chunk : List Nat) : HsStep :=
  let st := { st with buf := st.buf ++ chunk }
  let res := drainBuffer st.buf
  let st := { st with buf := res.2 }
  match res.1 with
  | some (.frame c p fin) =>
    if c = 0xff ∧ fin = 0xf0 then .again (st.handle_handshake cd p)
    else if c = 0xfd ∧ fin = 0xf0 then
      if st.session.isSome then
        match st.final_handshake cd p with
        | (none, st2) => .keyErr st2
        | (some true, st2) => .success st2
        | (some false, st2) => .retry st2
      else .retry st
    else .retry st
  | some .skip => .retry st
  | some .incomplete => .retry st
  | none => .retry st

/-- Result of `do_handshake`: success, a raised `FluxUSBError` (message and
symbol), another raised exception, or fuel exhaustion of the model. -/
inductive HsResult where
  | success
  | fluxErr (msg symbol : String)
  | exn (msg : String)
  | fuelOut
deriving DecidableEq

/-- The `while ttl:` retry loop of `do_handshake`: exiting with an exhausted
budget raises `FluxUSBError("Handshake failed.", symbol=("TIMEOUT",))`; a
retry resends the handshake request on channel `0xFC` and decrements `ttl`;
a handled profile frame continues without touching `ttl`. -/
def USBProtocol.do_handshake_loop (cd : Codec) :
    Nat → Nat → USBProtocol → List (List Nat) → HsResult × USBProtocol
  | 0, _, st, _ => (.fuelOut, st)
  | fuel + 1, ttl, st, chunks =>
    if ttl = 0 then (.fluxErr "Handshake failed." "TIMEOUT", st)
    else
      match USBProtocol.hs_iteration cd st (chunks.headD []) with
      | .success st2 => (.success, st2)
      | .keyErr st2 => (.exn "KeyError", st2)
      | .again st2 => USBProtocol.do_handshake_loop cd fuel ttl st2 chunks.tail
      | .retry st2 =>
        USBProtocol.do_handshake_loop cd fuel (ttl - 1)
          (st2.send_object cd 0xfc PyObj.nil) chunks.tail

/-- `USBProtocol.do_handshake`: issue the device-reset control transfer, send
the handshake request on channel `0xFC`, and enter the retry loop with a
budget of 5 attempts. -/
def USBProtocol.do_handshake (cd : Codec) (fuel : Nat) (st : USBProtocol)
    (chunks : List (List Nat)) : HsResult × USBProtocol :=
  let st := { st with resets := st.resets + 1 }
  let st := st.send_object cd 0xfc PyObj.nil
  USBProtocol.do_handshake_loop cd fuel 5 st chunks

/-! ### Frame-codec lemmas -/

/-- Inversion of a successful frame encoding: the ranges checked by
`HEAD_PACKER.pack` hold and the frame is the two length bytes, the channel
byte, the payload and the terminator. -/
theorem encodeFrame_eq_some {c : Nat} {p : List Nat} {t : Nat} {f : List Nat}
    (h : encodeFrame c p t = some f) :
    p.length + 4 ≤ 0xffff ∧ c ≤ 0xff ∧
      f = ((p.length + 4) % 256) :: ((p.length + 4) / 256) :: c :: (p ++ [t]) := by
  unfold encodeFrame packHead at h
  by_cases hg : p.length + 4 ≤ 0xffff ∧ c ≤ 0xff
  · rw [if_pos hg] at h
    simp only [Option.map_some', Option.some.injEq] at h
    exact ⟨hg.1, hg.2, by rw [← h]; rfl⟩
  · rw [if_neg hg] at h
    simp at h

/-- Decoding an encoded frame followed by arbitrary further bytes yields the
frame and consumes exactly its `total_length` bytes. -/
theorem unpack_encode (c t : Nat) (p rest : List Nat) :
    unpack_buffer ((((p.length + 4) % 256) :: ((p.length + 4) / 256) :: c :: (p ++ [t])) ++ rest)
      = (.frame c p t, rest) := by
  have hbuf : (((p.length + 4) % 256) :: ((p.length + 4) / 256) :: c :: (p ++ [t])) ++ rest
      = ((p.length + 4) % 256) :: ((p.length + 4) / 256) :: c :: ((p ++ [t]) ++ rest) := rfl
  rw [hbuf]
  have hg0 : (((p.length + 4) % 256) :: ((p.length + 4) / 256) :: c :: ((p ++ [t]) ++ rest)).getD 0 0
      = (p.length + 4) % 256 := rfl
  have hg1 : (((p.length + 4) % 256) :: ((p.length + 4) / 256) :: c :: ((p ++ [t]) ++ rest)).getD 1 0
      = (p.length + 4) / 256 := rfl
  have hg2 : (((p.length + 4) % 256) :: ((p.length + 4) / 256) :: c :: ((p ++ [t]) ++ rest)).getD 2 0
      = c := rfl
  have hL : (((p.length + 4) % 256) :: ((p.length + 4) / 256) :: c :: ((p ++ [t]) ++ rest)).length
      = p.length + 4 + rest.length := by
    simp [List.length_append]
    omega
  have hd3 : (((p.length + 4) % 256) :: ((p.length + 4) / 256) :: c :: ((p ++ [t]) ++ rest)).drop 3
      = (p ++ [t]) ++ rest := rfl
  have htk : ((p ++ [t]) ++ rest).take (p.length + 4 - 4) = p := by
    rw [List.append_assoc]
    exact List.take_left' (by omega)
  have hfin : (((p.length + 4) % 256) :: ((p.length + 4) / 256) :: c :: ((p ++ [t]) ++ rest)).getD
      (p.length + 4 - 1) 0 = t := by
    rw [show p.length + 4 - 1 = (p.length + 2) + 1 from by omega, List.getD_cons_succ,
      show p.length + 2 = (p.length + 1) + 1 from rfl, List.getD_cons_succ,
      List.getD_cons_succ, List.append_assoc,
      List.getD_append_right p ([t] ++ rest) 0 p.length (Nat.le_refl _), Nat.sub_self]
    rfl
  have hdr : (((p.length + 4) % 256) :: ((p.length + 4) / 256) :: c :: ((p ++ [t]) ++ rest)).drop
      (p.length + 4) = rest := by
    rw [show p.length + 4 = (p.length + 3) + 1 from rfl, List.drop_succ_cons,
      show p.length + 3 = (p.length + 2) + 1 from rfl, List.drop_succ_cons,
      show p.length + 2 = (p.length + 1) + 1 from rfl, List.drop_succ_cons]
    exact List.drop_left' (by simp)
  unfold unpack_buffer
  rw [hg0, hg1, hL, Nat.mod_add_div, hd3, hg2, hfin, hdr, htk]
  rw [if_pos (by omega), if_neg (by omega), if_pos (by omega)]

/-- C1 (amended): for every channel index in `[0,255]`, terminator byte, and
payload `p` with `len(p) + 4 ≤ 0xFFFF` (so that `total_length` fits the
16-bit header field), encoding `(c, p, terminator)` succeeds and feeding the
resulting bytes (followed by anything) to the frame decoder yields back
exactly `(c, p, terminator)`, consuming exactly `total_length` bytes from the
front of the receive buffer. -/
theorem frame_codec_roundtrip (c : Nat) (p : List Nat) (t : Nat) (rest : List Nat)
    (hc : c ≤ 0xff) (_ht : t ≤ 0xff) (hp : p.length + 4 ≤ 0xffff) :
    ∃ f, encodeFrame c p t = some f ∧ f.length = p.length + 4 ∧
      unpack_buffer (f ++ rest) = (.frame c p t, rest) := by
  refine ⟨((p.length + 4) % 256) :: ((p.length + 4) / 256) :: c :: (p ++ [t]), ?_, ?_, ?_⟩
  · unfold encodeFrame packHead
    rw [if_pos ⟨hp, hc⟩]
    rfl
  · simp [List.length_append]
  · exact unpack_encode c t p rest

/-- C1 witness: a concrete round trip through the codec. -/
theorem frame_codec_roundtrip_witness :
    ∃ f, encodeFrame 7 [1, 2, 3] 0xb0 = some f ∧ f.length = 7 ∧
      unpack_buffer (f ++ [9]) = (.frame 7 [1, 2, 3] 0xb0, [9]) :=
  frame_codec_roundtrip 7 [1, 2, 3] 0xb0 [9] (by decide) (by decide) (by decide)

/-- C1 counterexample: for a payload of 65532 bytes the claimed universal
round trip fails, because `total_length = 65536` does not fit the 16-bit
header and the frame packer raises `struct.error` instead of producing
bytes. -/
theorem frame_codec_roundtrip_counterexample :
    encodeFrame 0 (List.replicate 65532 0) 0xb0 = none := by
  unfold encodeFrame packHead
  rw [List.length_replicate, if_neg (by decide)]
  rfl

/-- C7 (amended): whenever more than 3 bytes are buffered and the first two
bytes decode to `total_length = 0`, one decoding step consumes exactly 2
bytes from the front of the buffer (leaving the third byte in place) and
returns the skip result, which is a constructor distinct from both a decoded
frame and the incomplete result, regardless of the bytes after the two length
bytes. -/
theorem zero_length_skip (buf : List Nat) (hl : 3 < buf.length)
    (h0 : buf.getD 0 0 + 256 * buf.getD 1 0 = 0) :
    unpack_buffer buf = (.skip, buf.drop 2) ∧
      (∀ c p f, (UnpackResult.skip : UnpackResult) ≠ .frame c p f) ∧
      (UnpackResult.skip : UnpackResult) ≠ .incomplete ∧
      (buf.drop 2).length = buf.length - 2 := by
  refine ⟨?_, fun c p f h => UnpackResult.noConfusion h,
    fun h => UnpackResult.noConfusion h, by simp⟩
  unfold unpack_buffer
  rw [if_pos hl, if_pos h0]

/-- C7 witness: a zero-length frame followed by junk is skipped, consuming
two bytes. -/
theorem zero_length_skip_witness :
    3 < ([0, 0, 9, 9] : List Nat).length ∧
      unpack_buffer [0, 0, 9, 9] = (.skip, [9, 9]) :=
  ⟨by decide, (zero_length_skip [0, 0, 9, 9] (by decide) (by decide)).1⟩

/-- C7 counterexample: a 3-byte buffer whose first two bytes decode to
`total_length = 0` is reported incomplete with nothing consumed — the claimed
behaviour requires more than 3 buffered bytes. -/
theorem zero_length_skip_counterexample :
    unpack_buffer [0, 0, 7] = (.incomplete, [0, 0, 7]) ∧
      unpack_buffer [0, 0, 7] ≠ (.skip, [7]) := by decide

/-- C8: decoding any strict prefix of a valid encoded frame yields
"incomplete" and leaves the buffered bytes exactly as they were; decoding the
prefix with the remaining bytes appended yields the complete frame with
nothing left over. -/
theorem partial_frame_stability (c : Nat) (p : List Nat) (t : Nat) (f pre suf : List Nat)
    (hf : encodeFrame c p t = some f) (hsplit : f = pre ++ suf) (hne : suf ≠ []) :
    unpack_buffer pre = (.incomplete, pre) ∧
      unpack_buffer (pre ++ suf) = (.frame c p t, []) := by
  obtain ⟨hp, hc, hform⟩ := encodeFrame_eq_some hf
  constructor
  · by_cases hl : 3 < pre.length
    · have hflen : f.length = p.length + 4 := by
        rw [hform]; simp [List.length_append]
      have hlt : pre.length < p.length + 4 := by
        have h1 : f.length = pre.length + suf.length := by rw [hsplit]; simp
        have h2 : 0 < suf.length := List.length_pos.mpr hne
        omega
      have hg0 : pre.getD 0 0 = (p.length + 4) % 256 := by
        have h := List.getD_append pre suf 0 0 (by omega)
        rw [← hsplit, hform] at h
        rw [← h]; rfl
      have hg1 : pre.getD 1 0 = (p.length + 4) / 256 := by
        have h := List.getD_append pre suf 0 1 (by omega)
        rw [← hsplit, hform] at h
        rw [← h]; rfl
      unfold unpack_buffer
      rw [if_pos hl, hg0, hg1, Nat.mod_add_div]
      rw [if_neg (by omega), if_neg (by omega)]
    · unfold unpack_buffer
      rw [if_neg hl]
  · rw [← hsplit, hform]
    have h := unpack_encode c t p []
    simpa using h

/-- C8 witness: the 2-byte strict prefix of a concrete 5-byte frame decodes
as incomplete, and completing it decodes the frame. -/
theorem partial_frame_stability_witness :
    unpack_buffer [5, 0] = (.incomplete, [5, 0]) ∧
      unpack_buffer ([5, 0] ++ [2, 5, 0xf0]) = (.frame 2 [5] 0xf0, []) :=
  partial_frame_stability 2 [5] 0xf0 [5, 0, 2, 5, 0xf0] [5, 0] [2, 5, 0xf0]
    (by decide) (by decide) (by decide)

/-- C10: the binary-acknowledgment frame written by `_send_binary_ack` is
exactly 4 bytes — `total_length = 4` little-endian, the same channel index,
an empty payload and terminator `0x80` — and that terminator differs from the
outbound object (`0xB0`) and binary (`0xBF`) codes and from the inbound
acknowledgment code (`0xC0`). -/
theorem binary_ack_frame_shape (c : Nat) (hc : c ≤ 0xff) :
    USBProtocol.send_binary_ack_frame c = some [4, 0, c, 0x80] ∧
      unpack_buffer [4, 0, c, 0x80] = (.frame c [] 0x80, []) ∧
      (0x80 : Nat) ≠ 0xb0 ∧ (0x80 : Nat) ≠ 0xbf ∧ (0x80 : Nat) ≠ 0xc0 := by
  refine ⟨?_, ?_, by decide, by decide, by decide⟩
  · unfold USBProtocol.send_binary_ack_frame packHead
    rw [if_pos ⟨by decide, hc⟩]
    rfl
  · have h0 : ([4, 0, c, 0x80] : List Nat).getD 0 0 = 4 := rfl
    have h1 : ([4, 0, c, 0x80] : List Nat).getD 1 0 = 0 := rfl
    have h2 : ([4, 0, c, 0x80] : List Nat).getD 2 0 = c := rfl
    have h3 : ([4, 0, c, 0x80] : List Nat).getD 3 0 = 0x80 := rfl
    have hL : ([4, 0, c, 0x80] : List Nat).length = 4 := rfl
    unfold unpack_buffer
    rw [h0, h1, hL]
    norm_num

/-- C10 witness: the acknowledgment frame for channel 3. -/
theorem binary_ack_frame_shape_witness :
    USBProtocol.send_binary_ack_frame 3 = some [4, 0, 3, 0x80] ∧ (3 : Nat) ≤ 0xff :=
  ⟨(binary_ack_frame_shape 3 (by decide)).1, by decide⟩

/-! ### Channel-index selection (`open_channel`) -/

/-- Recursive characterisation of the selection loop: scanning `0, …, n-1` in
order and overwriting the candidate on every free slot keeps the last — i.e.
greatest — free index. -/
def pickLast (free : Nat → Bool) : Nat → Option Nat
  | 0 => none
  | n + 1 => if free n then some n else pickLast free n

/-- The `for`-loop fold over `range n` equals `pickLast`. -/
theorem foldl_range_pickLast (free : Nat → Bool) (n : Nat) :
    (List.range n).foldl (fun idx i => if free i then some i else idx) none
      = pickLast free n := by
  induction n with
  | zero => rfl
  | succ n ih =>
    rw [List.range_succ, List.foldl_append, ih]
    rfl

/-- What `pickLast` returns is a free index below the bound, and it is the
greatest such. -/
theorem pickLast_eq_some (free : Nat → Bool) (n m : Nat) (h : pickLast free n = some m) :
    m < n ∧ free m = true ∧ ∀ j, j < n → free j = true → j ≤ m := by
  induction n with
  | zero => exact absurd h (by simp [pickLast])
  | succ n ih =>
    by_cases hf : free n
    · rw [pickLast, if_pos hf, Option.some.injEq] at h
      subst h
      exact ⟨Nat.lt_succ_self _, hf, fun j hj _ => Nat.lt_succ_iff.mp hj⟩
    · rw [pickLast, if_neg hf] at h
      obtain ⟨h1, h2, h3⟩ := ih h
      refine ⟨Nat.lt_succ_of_lt h1, h2, fun j hj hfj => ?_⟩
      rcases Nat.lt_succ_iff_lt_or_eq.mp hj with hj2 | rfl
      · exact h3 j hj2 hfj
      · exact absurd hfj (by simp [hf])

/-- `selectIdx` through `pickLast`. -/
theorem selectIdx_eq_pickLast (channels : List (Option Nat × Channel)) :
    USBProtocol.selectIdx channels
      = pickLast (fun i => (chanLookup channels (some i)).isNone) (channels.length + 1) :=
  foldl_range_pickLast _ _

/-- C2 counterexample: with only channel index 2 registered, the scan
`for i in range(len(channels) + 1)` has no break, so `open_channel` selects
index 1 even though the lower index 0 is also unused — the selected index is
not the lowest unused one. -/
theorem open_channel_lowest_counterexample :
    USBProtocol.selectIdx [(some 2, Channel.new (some 2))] = some 1 ∧
      USBProtocol.selectIdx [(some 2, Channel.new (some 2))] ≠ some 0 ∧
      chanLookup [(some 2, Channel.new (some 2))] (some 0) = none ∧
      0 < 1 := by decide

/-- C2 (amended): `open_channel` selects the highest unused channel index in
`[0, len(channels)]` — an unused index in that range such that every unused
index in the range is at most it — and sends the control-open request
`{channel: that index, action: open, type}` on the control-request channel
before waiting for confirmation. -/
theorem open_channel_selects_highest (cd : Codec) (st : USBProtocol) (t : String) (idx : Nat)
    (h : USBProtocol.selectIdx st.channels = some idx) :
    chanLookup st.channels (some idx) = none ∧
      idx ≤ st.channels.length ∧
      (∀ j, j ≤ st.channels.length → chanLookup st.channels (some j) = none → j ≤ idx) ∧
      USBProtocol.open_channel cd st t
        = (some idx, st.send_object cd 0xf0 (PyObj.ctrlOpen (some idx) t)) := by
  rw [selectIdx_eq_pickLast] at h
  obtain ⟨h1, h2, h3⟩ := pickLast_eq_some _ _ _ h
  refine ⟨Option.isNone_iff_eq_none.mp h2, Nat.lt_succ_iff.mp h1, ?_, ?_⟩
  · intro j hj hnone
    exact h3 j (Nat.lt_succ_of_le hj) (Option.isNone_iff_eq_none.mpr hnone)
  · unfold USBProtocol.open_channel
    rw [selectIdx_eq_pickLast, h]

/-- C2 witness: the amended selection on a concrete registry holding only
channel 2. -/
theorem open_channel_selects_highest_witness :
    chanLookup [(some 2, Channel.new (some 2))] (some 1) = none ∧
      1 ≤ ([(some 2, Channel.new (some 2))] : List (Option Nat × Channel)).length ∧
      (∀ j, j ≤ ([(some 2, Channel.new (some 2))] : List (Option Nat × Channel)).length →
        chanLookup [(some 2, Channel.new (some 2))] (some j) = none → j ≤ 1) := by
  have h := open_channel_selects_highest
    ⟨fun _ => [0xc0], fun _ => ⟨none, none, none⟩, fun _ => ⟨none, []⟩⟩
    { buf := [], sent := [], channels := [(some 2, Channel.new (some 2))],
      chl_semaphore := 0, flag := 0, session := none, endpoint_profile := none,
      connected_profile := none, resets := 0, disposed := false }
    "robot" 1 (by decide)
  exact ⟨h.1, h.2.1, h.2.2.1⟩

/-! ### Demultiplexing-loop lemmas -/

/-- Updating the registry entry at a key updates exactly the channel the
lookup returns. -/
theorem chanLookup_chanUpdate (l : List (Option Nat × Channel)) (k : Option Nat)
    (f : Channel → Channel) :
    chanLookup (chanUpdate l k f) k = (chanLookup l k).map f := by
  induction l with
  | nil => rfl
  | cons kc rest ih =>
    by_cases hk : kc.1 = k
    · simp [chanUpdate, chanLookup, hk, ih]
    · simp [chanUpdate, chanLookup, hk, ih]

/-- The binary-acknowledgment frame bytes for an in-range channel index. -/
theorem send_binary_ack_frame_eq (c : Nat) (hc : c ≤ 0xff) :
    USBProtocol.send_binary_ack_frame c = some [4, 0, c, 0x80] := by
  unfold USBProtocol.send_binary_ack_frame packHead
  rw [if_pos ⟨by decide, hc⟩]
  rfl

/-- A fixed concrete codec used by the concrete executions below: records
encode to msgpack nil, control decodes carry no fields, and a handshake
decode reads its session token from the first payload byte. -/
def cdT : Codec :=
  ⟨fun _ => [0xc0], fun _ => ⟨none, none, none⟩, fun b => ⟨some (Tok.tok (b.headD 0)), []⟩⟩

/-- A fresh connection state with nothing buffered, nothing sent and no
channels. -/
def stEmpty : USBProtocol :=
  ⟨[], [], [], 0, 0, none, none, none, 0, false⟩

/-- C6: a decoded frame addressed to a data-channel index with no registered
channel makes `run_once` raise the bad-channel `FluxUSBError`, and the run
loop thereupon stops and closes the connection: with the loop bit set, one
loop step ends in the closed state with the flag zeroed, for every remaining
fuel, so no further frame is processed. -/
theorem unknown_channel_fatal (cd : Codec) (st : USBProtocol) (c : Nat) (p : List Nat)
    (fin : Nat) (rest : List Nat)
    (hdec : unpack_buffer st.buf = (.frame c p fin, rest))
    (hc : c < 0x80)
    (hch : chanLookup st.channels (some c) = none) :
    USBProtocol.run_once cd [] st = (.fluxErr "Recv bad channel idx", { st with buf := rest }) ∧
      (st.flag = 3 → ∀ fuel, USBProtocol.runLoop cd (fuel + 1) st []
        = USBProtocol.close cd { st with buf := rest, flag := 0 }) := by
  have h1 : USBProtocol.run_once cd [] st
      = (.fluxErr "Recv bad channel idx", { st with buf := rest }) := by
    simp only [USBProtocol.run_once, List.append_nil, hdec, hch]
    rw [if_pos hc]
  refine ⟨h1, fun hflag fuel => ?_⟩
  simp only [USBProtocol.runLoop, List.headD, h1, if_pos hflag]

/-- C6 witness: a frame for the unregistered channel 7 on an otherwise fresh
connection with the loop running. -/
theorem unknown_channel_fatal_witness :
    USBProtocol.run_once cdT [] { stEmpty with buf := [5, 0, 7, 1, 0xf0], flag := 3 }
        = (.fluxErr "Recv bad channel idx", { stEmpty with buf := [], flag := 3 }) ∧
      USBProtocol.runLoop cdT 1 { stEmpty with buf := [5, 0, 7, 1, 0xf0], flag := 3 } []
        = USBProtocol.close cdT { stEmpty with buf := [], flag := 0 } := by
  have h := unknown_channel_fatal cdT { stEmpty with buf := [5, 0, 7, 1, 0xf0], flag := 3 }
    7 [1] 0xf0 [] (by decide) (by decide) (by decide)
  exact ⟨h.1, h.2 rfl 0⟩

/-- C3 (amended): when one demultiplexing-loop iteration decodes the
zero-length skip sentinel, `run_once` does not ignore it: it raises
`FluxUSBError("USB protocol broken")` without dispatching anything to a
channel, and the run loop treats this as fatal — it stops and closes the
connection. -/
theorem skip_sentinel_fatal (cd : Codec) (st : USBProtocol) (rest : List Nat)
    (hdec : unpack_buffer st.buf = (.skip, rest)) :
    USBProtocol.run_once cd [] st = (.fluxErr "USB protocol broken", { st with buf := rest }) ∧
      (st.flag = 3 → ∀ fuel, USBProtocol.runLoop cd (fuel + 1) st []
        = USBProtocol.close cd { st with buf := rest, flag := 0 }) := by
  have h1 : USBProtocol.run_once cd [] st
      = (.fluxErr "USB protocol broken", { st with buf := rest }) := by
    simp only [USBProtocol.run_once, List.append_nil, hdec]
  refine ⟨h1, fun hflag fuel => ?_⟩
  simp only [USBProtocol.runLoop, List.headD, h1, if_pos hflag]

/-- C3 counterexample: on a connection with the loop running and a channel
registered, a buffered zero-length keepalive makes `run_once` raise rather
than return normally. -/
theorem skip_sentinel_counterexample :
    (USBProtocol.run_once cdT [] { stEmpty with buf := [0, 0, 9, 9], flag := 3 }).1
        = .fluxErr "USB protocol broken" ∧
      (USBProtocol.run_once cdT [] { stEmpty with buf := [0, 0, 9, 9], flag := 3 }).1
        ≠ .ok := by decide

/-- C3 witness: the concrete skip execution and the stopped, closed loop. -/
theorem skip_sentinel_fatal_witness :
    USBProtocol.run_once cdT [] { stEmpty with buf := [0, 0, 9, 9], flag := 3 }
        = (.fluxErr "USB protocol broken", { stEmpty with buf := [9, 9], flag := 3 }) ∧
      USBProtocol.runLoop cdT 1 { stEmpty with buf := [0, 0, 9, 9], flag := 3 } []
        = USBProtocol.close cdT { stEmpty with buf := [9, 9], flag := 0 } := by
  have h := skip_sentinel_fatal cdT { stEmpty with buf := [0, 0, 9, 9], flag := 3 }
    [9, 9] (by decide)
  exact ⟨h.1, h.2 rfl 0⟩

/-- A successful acquire: `send_binary` on an open registered channel whose
acknowledgment counter is positive writes the binary frame and consumes
exactly one acknowledgment. -/
theorem send_binary_acquires (st : USBProtocol) (k : Option Nat) (ch : Channel) (i : Nat)
    (data fr : List Nat) (n : Nat)
    (hch : chanLookup st.channels k = some ch) (hop : ch.opened = true)
    (hidx : ch.index = some i) (henc : encodeFrame i data 0xbf = some fr)
    (hack : ch.ack_semaphore = n + 1) :
    Channel.send_binary st k data
      = (.ok, { st with
          sent := st.sent ++ [fr]
          channels := chanUpdate st.channels k
            (fun c2 => { c2 with ack_semaphore := c2.ack_semaphore - 1 }) }) := by
  simp only [Channel.send_binary, hch, hop, hidx, henc, hack, if_true]
  rw [if_pos (Nat.succ_pos n)]

/-- A failed acquire: `send_binary` on an open registered channel whose
acknowledgment counter is zero writes the binary frame and then times out,
leaving the counter at zero. -/
theorem send_binary_times_out (st : USBProtocol) (k : Option Nat) (ch : Channel) (i : Nat)
    (data fr : List Nat)
    (hch : chanLookup st.channels k = some ch) (hop : ch.opened = true)
    (hidx : ch.index = some i) (henc : encodeFrame i data 0xbf = some fr)
    (hack : ch.ack_semaphore = 0) :
    Channel.send_binary st k data
      = (.fluxErr "Operation timeout" "TIMEOUT", { st with sent := st.sent ++ [fr] }) := by
  simp only [Channel.send_binary, hch, hop, hidx, henc, hack, if_true]
  rw [if_neg (by omega)]

/-- C5: acknowledgments have counter semantics.  (i) Every inbound frame with
terminator `0xC0` on a registered data channel makes `run_once` increment that
channel's acknowledgment count by exactly one and change nothing else.
(ii) A `send_binary` call finding a positive count `n + 1` succeeds and leaves
exactly `n`.  (iii) A `send_binary` call finding count `0` blocks and times
out.  (iv) Hence a single acknowledgment received before any `send_binary` is
outstanding is consumed by exactly one later call: with count `1`, the first
call returns ok and a second call on the resulting state times out instead of
returning immediately. -/
theorem binary_ack_counter (cd : Codec) :
    (∀ (st : USBProtocol) (c : Nat) (p rest : List Nat) (ch : Channel),
      unpack_buffer st.buf = (.frame c p 0xc0, rest) → c < 0x80 →
      chanLookup st.channels (some c) = some ch →
      USBProtocol.run_once cd [] st
          = (.ok, { st with
              buf := rest
              channels := chanUpdate st.channels (some c) Channel.on_binary_ack }) ∧
        (Channel.on_binary_ack ch).ack_semaphore = ch.ack_semaphore + 1) ∧
    (∀ (st : USBProtocol) (k : Option Nat) (ch : Channel) (i : Nat) (data fr : List Nat) (n : Nat),
      chanLookup st.channels k = some ch → ch.opened = true → ch.index = some i →
      encodeFrame i data 0xbf = some fr → ch.ack_semaphore = n + 1 →
      Channel.send_binary st k data
        = (.ok, { st with
            sent := st.sent ++ [fr]
            channels := chanUpdate st.channels k
              (fun c2 => { c2 with ack_semaphore := c2.ack_semaphore - 1 }) })) ∧
    (∀ (st : USBProtocol) (k : Option Nat) (ch : Channel) (i : Nat) (data fr : List Nat),
      chanLookup st.channels k = some ch → ch.opened = true → ch.index = some i →
      encodeFrame i data 0xbf = some fr → ch.ack_semaphore = 0 →
      Channel.send_binary st k data
        = (.fluxErr "Operation timeout" "TIMEOUT", { st with sent := st.sent ++ [fr] })) ∧
    (∀ (st : USBProtocol) (k : Option Nat) (ch : Channel) (i : Nat) (d1 d2 f1 f2 : List Nat),
      chanLookup st.channels k = some ch → ch.opened = true → ch.index = some i →
      encodeFrame i d1 0xbf = some f1 → encodeFrame i d2 0xbf = some f2 →
      ch.ack_semaphore = 1 →
      (Channel.send_binary st k d1).1 = .ok ∧
      (Channel.send_binary (Channel.send_binary st k d1).2 k d2).1
        = .fluxErr "Operation timeout" "TIMEOUT") := by
  refine ⟨?_, send_binary_acquires, send_binary_times_out, ?_⟩
  · intro st c p rest ch hdec hc hch
    refine ⟨?_, rfl⟩
    simp only [USBProtocol.run_once, List.append_nil, hdec, hch]
    rw [if_pos hc, if_neg (by decide), if_neg (by decide)]
    simp only [if_true]
  · intro st k ch i d1 d2 f1 f2 hch hop hidx h1 h2 hack
    have hfirst := send_binary_acquires st k ch i d1 f1 0 hch hop hidx h1 hack
    rw [hfirst]
    refine ⟨rfl, ?_⟩
    have hch2 : chanLookup
        (chanUpdate st.channels k (fun c2 => { c2 with ack_semaphore := c2.ack_semaphore - 1 })) k
        = some { ch with ack_semaphore := ch.ack_semaphore - 1 } := by
      rw [chanLookup_chanUpdate, hch]
      rfl
    have hsecond := send_binary_times_out
      { st with
        sent := st.sent ++ [f1]
        channels := chanUpdate st.channels k
          (fun c2 => { c2 with ack_semaphore := c2.ack_semaphore - 1 }) }
      k { ch with ack_semaphore := ch.ack_semaphore - 1 } i d2 f2
      hch2 hop hidx h2 (by rw [hack])
    rw [hsecond]

/-- C5 witness: concrete instances of all four parts on a registered channel
at index 2. -/
theorem binary_ack_counter_witness :
    (USBProtocol.run_once cdT []
        { stEmpty with buf := [4, 0, 2, 0xc0], channels := [(some 2, Channel.new (some 2))] }
      = (.ok, { stEmpty with
          buf := []
          channels := chanUpdate [(some 2, Channel.new (some 2))] (some 2)
            Channel.on_binary_ack })) ∧
    (Channel.send_binary
        { stEmpty with channels := [(some 2, { Channel.new (some 2) with ack_semaphore := 1 })] }
        (some 2) [8]).1 = .ok ∧
    (Channel.send_binary
        { stEmpty with channels := [(some 2, Channel.new (some 2))] } (some 2) [8]).1
      = .fluxErr "Operation timeout" "TIMEOUT" ∧
    (Channel.send_binary
        (Channel.send_binary
          { stEmpty with channels := [(some 2, { Channel.new (some 2) with ack_semaphore := 1 })] }
          (some 2) [8]).2
        (some 2) [9]).1 = .fluxErr "Operation timeout" "TIMEOUT" := by
  have h := binary_ack_counter cdT
  refine ⟨(h.1 _ 2 [] [] (Channel.new (some 2)) (by decide) (by decide) (by decide)).1, ?_, ?_, ?_⟩
  · rw [(h.2.1 _ (some 2) { Channel.new (some 2) with ack_semaphore := 1 } 2 [8]
      [5, 0, 2, 8, 0xbf] 0 (by decide) (by decide) (by decide) (by decide) (by decide))]
  · rw [(h.2.2.1 _ (some 2) (Channel.new (some 2)) 2 [8]
      [5, 0, 2, 8, 0xbf] (by decide) (by decide) (by decide) (by decide) (by decide))]
  · exact (h.2.2.2 _ (some 2) { Channel.new (some 2) with ack_semaphore := 1 } 2 [8] [9]
      [5, 0, 2, 8, 0xbf] [5, 0, 2, 9, 0xbf]
      (by decide) (by decide) (by decide) (by decide) (by decide) (by decide)).2

/-- C9: a decoded frame with terminator `0xFF` for a registered data channel
makes `run_once` write the zero-payload binary-acknowledgment frame for that
channel index back to the transport and deliver the raw payload to the
channel via `on_binary`; `on_binary` appends the payload to the channel's
binary queue and releases one waiter when no live binary-stream sink is
attached, and forwards the payload to the sink without queueing when one
is attached. -/
theorem binary_dispatch_acks_then_delivers (cd : Codec) (st : USBProtocol) (c : Nat)
    (p rest : List Nat) (ch : Channel)
    (hdec : unpack_buffer st.buf = (.frame c p 0xff, rest))
    (hc : c < 0x80)
    (hch : chanLookup st.channels (some c) = some ch) :
    USBProtocol.run_once cd [] st
        = (.ok, { st with
            buf := rest
            sent := st.sent ++ [[4, 0, c, 0x80]]
            channels := chanUpdate st.channels (some c) (Channel.on_binary p) }) ∧
      (ch.binary_stream = none → Channel.on_binary p ch
        = { ch with bufq := ch.bufq ++ [p], buf_semaphore := ch.buf_semaphore + 1 }) ∧
      (∀ sunk, ch.binary_stream = some sunk → Channel.on_binary p ch
        = { ch with binary_stream := some (sunk ++ [p]) }) := by
  refine ⟨?_, fun hs => by simp only [Channel.on_binary, hs],
    fun sunk hs => by simp only [Channel.on_binary, hs]⟩
  have hackfr : USBProtocol.send_binary_ack_frame c = some [4, 0, c, 0x80] :=
    send_binary_ack_frame_eq c (by omega)
  simp only [USBProtocol.run_once, List.append_nil, hdec, hch, hackfr]
  rw [if_pos hc, if_neg (by decide)]
  simp only [if_true]

/-- C9 witness: a binary frame for registered channel 2 without a sink, and
the sink case of `on_binary`. -/
theorem binary_dispatch_acks_then_delivers_witness :
    (USBProtocol.run_once cdT []
        { stEmpty with buf := [5, 0, 2, 7, 0xff], channels := [(some 2, Channel.new (some 2))] }
      = (.ok, { stEmpty with
          buf := []
          sent := [[4, 0, 2, 0x80]]
          channels := chanUpdate [(some 2, Channel.new (some 2))] (some 2)
            (Channel.on_binary [7]) })) ∧
    Channel.on_binary [7] (Channel.new (some 2))
      = { Channel.new (some 2) with bufq := [[7]], buf_semaphore := 1 } ∧
    Channel.on_binary [7] { Channel.new (some 2) with binary_stream := some [] }
      = { Channel.new (some 2) with binary_stream := some [[7]] } := by
  have h := binary_dispatch_acks_then_delivers cdT
    { stEmpty with buf := [5, 0, 2, 7, 0xff], channels := [(some 2, Channel.new (some 2))] }
    2 [7] [] (Channel.new (some 2)) (by decide) (by decide) (by decide)
  exact ⟨h.1, h.2.1 rfl, by decide⟩

/-! ### Handshake lemmas -/

/-- `send_object` never touches the receive buffer. -/
theorem send_object_buf (cd : Codec) (st : USBProtocol) (ch : Nat) (obj : PyObj) :
    (USBProtocol.send_object cd st ch obj).buf = st.buf := by
  unfold USBProtocol.send_object
  split <;> rfl

/-- A handshake iteration that reads nothing from an empty buffer falls
through to a retry with the state unchanged. -/
theorem hs_iteration_empty (cd : Codec) (st : USBProtocol) (hbuf : st.buf = []) :
    USBProtocol.hs_iteration cd st [] = .retry st := by
  obtain ⟨buf, sent, channels, chl, flag, session, ep, cp, resets, disposed⟩ := st
  simp only at hbuf
  subst hbuf
  simp [USBProtocol.hs_iteration, drainBuffer, drainAux]

/-- With no incoming data at all, every loop iteration retries, so a budget
of `ttl` attempts is exhausted after `ttl` iterations and the loop fails with
the `TIMEOUT` error. -/
theorem hs_loop_starves (cd : Codec) :
    ∀ (ttl : Nat) (st : USBProtocol) (fuel : Nat), st.buf = [] →
      (USBProtocol.do_handshake_loop cd (ttl + fuel + 1) ttl st []).1
        = .fluxErr "Handshake failed." "TIMEOUT" := by
  intro ttl
  induction ttl with
  | zero =>
    intro st fuel hbuf
    rw [Nat.zero_add]
    rfl
  | succ ttl ih =>
    intro st fuel hbuf
    have hiter := hs_iteration_empty cd st hbuf
    rw [show ttl + 1 + fuel + 1 = (ttl + fuel + 1) + 1 from by omega]
    simp only [USBProtocol.do_handshake_loop, List.headD_nil, List.tail_nil]
    rw [if_neg (Nat.succ_ne_zero ttl), hiter]
    simp only [Nat.add_sub_cancel]
    exact ih _ fuel (by rw [send_object_buf, hbuf])

/-- C4: (i) during the handshake, when the drain of the receive buffer ends
on a final-confirmation frame (channel `0xFD`, terminator `0xF0`) whose
decoded `session` field differs from the stored session token, the iteration
clears the stored session and falls through to a retry, and the retry loop
then sends a fresh handshake-request object on channel `0xFC` and decrements
the retry budget by one; (ii) a loop entered with an exhausted budget fails
with `FluxUSBError("Handshake failed.")` whose symbol is `TIMEOUT`; (iii) in
particular `do_handshake`, whose budget is 5, fails with that `TIMEOUT` error
after its 5 attempts when no confirmation ever arrives. -/
theorem handshake_mismatch_and_timeout (cd : Codec) :
    (∀ (fuel ttl : Nat) (st : USBProtocol) (chunk : List Nat) (crest : List (List Nat))
        (p buf1 : List Nat) (s s2 : Tok),
      drainBuffer (st.buf ++ chunk) = (some (.frame 0xfd p 0xf0), buf1) →
      st.session = some s →
      (cd.unpackHs p).session = some s2 →
      s2 ≠ s →
      USBProtocol.hs_iteration cd st chunk
          = .retry { st with buf := buf1, session := none } ∧
        USBProtocol.do_handshake_loop cd (fuel + 1) (ttl + 1) st (chunk :: crest)
          = USBProtocol.do_handshake_loop cd fuel ttl
              (USBProtocol.send_object cd { st with buf := buf1, session := none }
                0xfc PyObj.nil) crest) ∧
    (∀ (fuel : Nat) (st : USBProtocol) (chunks : List (List Nat)),
      USBProtocol.do_handshake_loop cd (fuel + 1) 0 st chunks
        = (.fluxErr "Handshake failed." "TIMEOUT", st)) ∧
    (∀ (extra : Nat) (st : USBProtocol), st.buf = [] →
      (USBProtocol.do_handshake cd (5 + extra + 1) st []).1
        = .fluxErr "Handshake failed." "TIMEOUT") := by
  refine ⟨?_, fun fuel st chunks => rfl, ?_⟩
  · intro fuel ttl st chunk crest p buf1 s s2 hdrain hsess hmsg hne
    have hiter : USBProtocol.hs_iteration cd st chunk
        = .retry { st with buf := buf1, session := none } := by
      simp [USBProtocol.hs_iteration, hdrain, USBProtocol.final_handshake, hmsg, hsess,
        Ne.symm hne]
    refine ⟨hiter, ?_⟩
    simp only [USBProtocol.do_handshake_loop, List.headD_cons, List.tail_cons, hiter]
    rw [if_neg (Nat.succ_ne_zero ttl)]
    simp only [Nat.add_sub_cancel]
  · intro extra st hbuf
    unfold USBProtocol.do_handshake
    exact hs_loop_starves cd 5 _ extra (by rw [send_object_buf]; exact hbuf)

/-- C4 witness: a concrete mismatched final-confirmation frame (stored token
1, received token 2) clears the session and retries, and a full
`do_handshake` run on silence ends in the `TIMEOUT` failure. -/
theorem handshake_mismatch_and_timeout_witness :
    USBProtocol.hs_iteration cdT
        { stEmpty with buf := [5, 0, 0xfd, 2, 0xf0], session := some (Tok.tok 1) } []
      = .retry { stEmpty with buf := [], session := none } ∧
    (USBProtocol.do_handshake cdT 6 stEmpty []).1 = .fluxErr "Handshake failed." "TIMEOUT" := by
  have h := handshake_mismatch_and_timeout cdT
  refine ⟨?_, h.2.2 0 stEmpty rfl⟩
  exact (h.1 0 0 { stEmpty with buf := [5, 0, 0xfd, 2, 0xf0], session := some (Tok.tok 1) }
    [] [] [2] [] (Tok.tok 1) (Tok.tok 2) (by decide) (by decide) (by decide) (by decide)).1
